import Mathlib

/-!
# Verification of `export_dashboard_data.py` (moltbook-stats)

Shallow embedding of the dashboard-export pipeline. Tabular data is modelled
as lists of records; a possibly-missing (NaN) cell is an `Option` value.
A numeric value that pandas would represent as NaN is `none : Option ℚ`;
every finite float is a rational. Timestamp parsing (`pd.to_datetime`) is
abstracted: a parseable timestamp is a `Timestamp` record carrying its raw
string together with the derived calendar date ordinal, hour-of-day and
day-of-week that the script reads off via the `.dt` accessors; an
unparseable/missing cell is `none` (pandas NaT, whose `.dt` projections are
missing and therefore dropped by `groupby`).

Fallible steps (`Series.idxmax` on an empty series, `json.dump` with
`allow_nan=False`) are modelled in `Except String`.
-/

namespace MoltbookStats

/-- The values of a pandas Series: the non-missing cells, in row order. -/
def seriesVals (l : List (Option ℚ)) : List ℚ :=
  l.filterMap id

/-- Model of `Series.sum()`: sums the non-missing cells; `0` when all are missing. -/
def sSum (l : List (Option ℚ)) : ℚ :=
  (seriesVals l).sum

/-- Model of `Series.mean()`: mean over the non-missing cells; NaN (`none`) when there
are none. -/
def sMean (l : List (Option ℚ)) : Option ℚ :=
  let v := seriesVals l
  if v.length = 0 then none else some (v.sum / v.length)

/-- Stable insertion into an ascending-sorted list of rationals. -/
def insertAscQ (x : ℚ) : List ℚ → List ℚ
  | [] => [x]
  | y :: ys => if x ≤ y then x :: y :: ys else y :: insertAscQ x ys

/-- Ascending insertion sort on rationals. -/
def sortAscQ : List ℚ → List ℚ
  | [] => []
  | x :: xs => insertAscQ x (sortAscQ xs)

/-- Model of `Series.median()`: median of the non-missing cells (mean of the two middle
elements for even length); NaN (`none`) when there are none. -/
def sMedian (l : List (Option ℚ)) : Option ℚ :=
  let v := sortAscQ (seriesVals l)
  let n := v.length
  if n = 0 then none
  else if n % 2 = 1 then some (v.getD (n / 2) 0)
  else some ((v.getD (n / 2 - 1) 0 + v.getD (n / 2) 0) / 2)

/-- Model of `Series.quantile(q)` with pandas' default linear interpolation; NaN
(`none`) when no cell is non-missing. -/
def sQuantile (q : ℚ) (l : List (Option ℚ)) : Option ℚ :=
  let v := sortAscQ (seriesVals l)
  let n := v.length
  if n = 0 then none
  else
    let h : ℚ := q * ((n : ℚ) - 1)
    let i : ℕ := (Int.toNat ⌊h⌋)
    let lo := v.getD i 0
    let hi := v.getD (i + 1) lo
    some (lo + (h - (i : ℚ)) * (hi - lo))

/-- Model of `Series.nunique()`: number of distinct non-missing values. -/
def sNunique {α : Type} [DecidableEq α] (l : List (Option α)) : ℕ :=
  (l.filterMap id).dedup.length

/-- Model of `Series.count()` (used by `.agg('count')`): number of non-missing cells. -/
def sCount {α : Type} (l : List (Option α)) : ℕ :=
  (l.filter (·.isSome)).length

/-- Model of `Series.isna().all()`. -/
def isnaAll {α : Type} (l : List (Option α)) : Bool :=
  l.all (·.isNone)

/-- Python `int(q)`: truncation toward zero. -/
def pyInt (q : ℚ) : ℤ :=
  if 0 ≤ q then ⌊q⌋ else ⌈q⌉

/-- numpy/pandas round-half-to-even of a rational to the nearest integer. -/
def roundHalfEven (q : ℚ) : ℤ :=
  let f := ⌊q⌋
  let r := q - (f : ℚ)
  if r < 1 / 2 then f
  else if 1 / 2 < r then f + 1
  else if Even f then f else f + 1

/-- pandas `.round(2)`: round to two decimal places, half to even. -/
def round2 (q : ℚ) : ℚ :=
  (roundHalfEven (q * 100) : ℚ) / 100

/-- Minimum of a list of strings under lexicographic order (pandas
`Series.min` on an object column, missing cells excluded). -/
def minString : List String → Option String
  | [] => none
  | x :: xs =>
    match minString xs with
    | none => some x
    | some m => some (min x m)

/-- Maximum of a list of strings under lexicographic order. -/
def maxString : List String → Option String
  | [] => none
  | x :: xs =>
    match maxString xs with
    | none => some x
    | some m => some (max x m)

/-- Insert a key into a strictly-ascending sorted key list, skipping
duplicates. -/
def insertKey {κ : Type} [LinearOrder κ] (x : κ) : List κ → List κ
  | [] => [x]
  | y :: ys =>
    if x < y then x :: y :: ys
    else if x = y then y :: ys
    else y :: insertKey x ys

/-- The distinct values of a list, in ascending order — pandas `groupby`
group keys (default `sort=True`, missing keys already excluded). -/
def sortedKeys {κ : Type} [LinearOrder κ] (l : List κ) : List κ :=
  l.foldr insertKey []

/-- pandas `df.groupby(key)` (default `sort=True`): the groups in ascending
key order, each with the rows carrying that key, in row order. -/
def groupBy {α κ : Type} [LinearOrder κ] (key : α → κ) (l : List α) :
    List (κ × List α) :=
  (sortedKeys (l.map key)).map (fun k => (k, l.filter (fun a => key a = k)))

/-- Scan step of `Series.idxmax`: index of the first maximal value, given the best
pair so far. -/
def idxmaxAux {κ : Type} (best : κ × ℚ) : List (κ × ℚ) → κ
  | [] => best.1
  | (k, v) :: rest =>
    if best.2 < v then idxmaxAux (k, v) rest else idxmaxAux best rest

/-- Model of `Series.idxmax()`: key of the first occurrence of the maximal value;
raises (`none`) on an empty series. -/
def idxmax {κ : Type} : List (κ × ℚ) → Option κ
  | [] => none
  | p :: rest => some (idxmaxAux p rest)

/-- Stable insertion for a descending sort by a rational key: the new,
originally-earlier element goes in front of equal keys. -/
def insertDescBy {α : Type} (key : α → ℚ) (x : α) : List α → List α
  | [] => [x]
  | y :: ys => if key y ≤ key x then x :: y :: ys else y :: insertDescBy key x ys

/-- Stable descending insertion sort by a rational key (Python's stable
`sort(reverse=True)`; pandas `nlargest` with `keep='first'`). -/
def sortDescBy {α : Type} (key : α → ℚ) : List α → List α
  | [] => []
  | x :: xs => insertDescBy key x (sortDescBy key xs)

/-- Model of `df.nlargest(n, col)`: rows with a missing key are dropped, the rest are
sorted descending by the key (first occurrence first among ties) and the
first `n` are kept. -/
def nlargestOpt {α : Type} (n : ℕ) (key : α → Option ℚ) (l : List α) : List α :=
  (sortDescBy (fun a => (key a).getD 0) (l.filter (fun a => (key a).isSome))).take n

/-- Model of `nlargest` over a column with no missing values (after `fillna`). -/
def nlargest {α : Type} (n : ℕ) (key : α → ℚ) (l : List α) : List α :=
  (sortDescBy key l).take n

/-! ## Data model -/

/-- A parsed creation timestamp (`pd.to_datetime` result), abstracted to its
raw string plus the `.dt` projections the script uses: calendar-date ordinal,
hour of day, and day of week (0 = Monday … 6 = Sunday). -/
structure Timestamp where
  raw : String
  date : ℤ
  hour : Fin 24
  dow : Fin 7
  deriving DecidableEq, Repr

/-- A row of `data/posts_latest.csv`. Each cell is `none` when missing. -/
structure Post where
  id : Option ℤ
  title : Option String
  author_name : Option String
  submolt_display_name : Option String
  upvotes : Option ℚ
  comment_count : Option ℚ
  created_at : Option Timestamp
  url : Option String
  deriving DecidableEq, Repr

/-- A row of `data/author_stats.csv`. `pd.read_csv` gives the frame a
positional `RangeIndex`; the author name is just another column. -/
structure AuthorRow where
  author_name : Option String
  total_posts : Option ℚ
  avg_upvotes : Option ℚ
  engagement_rate : Option ℚ
  success_rate : Option ℚ
  consistency_score : Option ℚ
  upvotes_std : Option ℚ
  posts_per_day : Option ℚ
  deriving DecidableEq, Repr

/-- An author-stats row after `author_stats.fillna(0)`. -/
structure AuthorRowF where
  total_posts : ℚ
  avg_upvotes : ℚ
  engagement_rate : ℚ
  success_rate : ℚ
  consistency_score : ℚ
  upvotes_std : ℚ
  posts_per_day : ℚ
  deriving DecidableEq, Repr

/-- Model of `author_stats.fillna(0)` on one row (numeric columns). -/
def fillAuthor (a : AuthorRow) : AuthorRowF where
  total_posts := a.total_posts.getD 0
  avg_upvotes := a.avg_upvotes.getD 0
  engagement_rate := a.engagement_rate.getD 0
  success_rate := a.success_rate.getD 0
  consistency_score := a.consistency_score.getD 0
  upvotes_std := a.upvotes_std.getD 0
  posts_per_day := a.posts_per_day.getD 0

/-- The loaded dataset (`load_all_data`'s `data` dict). JSON objects are
insertion-ordered association lists with distinct keys. -/
structure Data where
  posts : List Post
  author_stats : List AuthorRow
  cross_posters : List (String × List String)
  bridge_authors : List (String × ℚ)
  network_stats : List (String × ℚ)
  deriving DecidableEq, Repr

/-- Model of `load_all_data`: the two required tables are given (their read has
succeeded); each optional JSON file is `none` when missing, unreadable or
malformed, in which case an empty mapping is substituted. -/
def load_all_data (posts : List Post) (author_stats : List AuthorRow)
    (cross_posters : Option (List (String × List String)))
    (bridge_authors : Option (List (String × ℚ)))
    (network_stats : Option (List (String × ℚ))) : Data where
  posts := posts
  author_stats := author_stats
  cross_posters := cross_posters.getD []
  bridge_authors := bridge_authors.getD []
  network_stats := network_stats.getD []

/-! ## Overview aggregator (`export_overview_stats`) -/

/-- The `overview` section. `date_range` is flattened into its two fields. -/
structure Overview where
  total_posts : ℤ
  total_authors : ℤ
  total_submolts : ℤ
  total_upvotes : ℤ
  total_comments : ℤ
  avg_upvotes_per_post : Option ℚ
  median_upvotes : Option ℚ
  avg_comments_per_post : Option ℚ
  date_range_start : String
  date_range_end : String
  deriving DecidableEq, Repr

/-- Model of `export_overview_stats`: statistics over the raw posts frame (no
`fillna` here). `float(...)` of a NaN mean/median keeps the NaN, hence the
`Option ℚ` fields. `str(...)` of the NaN min/max is the string `"nan"`. -/
def export_overview_stats (d : Data) : Overview :=
  let df := d.posts
  { total_posts := (df.length : ℤ)
    total_authors := (sNunique (df.map (·.author_name)) : ℤ)
    total_submolts := (sNunique (df.map (·.submolt_display_name)) : ℤ)
    total_upvotes := pyInt (sSum (df.map (·.upvotes)))
    total_comments := pyInt (sSum (df.map (·.comment_count)))
    avg_upvotes_per_post := sMean (df.map (·.upvotes))
    median_upvotes := sMedian (df.map (·.upvotes))
    avg_comments_per_post := sMean (df.map (·.comment_count))
    date_range_start :=
      (minString ((df.filterMap (·.created_at)).map (·.raw))).getD "nan"
    date_range_end :=
      (maxString ((df.filterMap (·.created_at)).map (·.raw))).getD "nan" }

/-! ## Top-posts aggregator (`export_top_posts`) -/

/-- One record of the `top_posts` list. -/
structure TopPost where
  title : String
  upvotes : ℤ
  comment_count : ℤ
  author_name : String
  submolt_display_name : String
  created_at : String
  deriving DecidableEq, Repr

/-- Projection of a selected row to a serializable `top_posts` record.
The `fillna` of the source (`title → ''`, `author_name`/`submolt_display_name
→ 'Unknown'`) is folded into the `getD` projections, and the truthiness test
`if post['title']` maps the filled empty title to `'Untitled'`. -/
def mkTopPost (p : Post) : TopPost where
  title := let t := p.title.getD ""; if t = "" then "Untitled" else t
  upvotes := match p.upvotes with | some q => pyInt q | none => 0
  comment_count := match p.comment_count with | some q => pyInt q | none => 0
  author_name := p.author_name.getD "Unknown"
  submolt_display_name := p.submolt_display_name.getD "Unknown"
  created_at := match p.created_at with | some ts => ts.raw | none => ""

/-- Model of the row selection of `export_top_posts`: the `n` rows with the
largest upvote count (`df.nlargest`, which drops rows whose `upvotes` cell
is missing), projected to records. The `fillna` on the string columns
commutes with row selection. This is the selection `nlargest` performs once
its dtype validation has passed; the validation itself — which fails on a
zero-row frame — is modelled by `export_top_posts_checked` below. -/
def export_top_posts (d : Data) (n : ℕ := 20) : List TopPost :=
  (nlargestOpt n (·.upvotes) d.posts).map mkTopPost

/-- Model of the full `export_top_posts` call as `main` runs it, including
the dtype validation `DataFrame.nlargest` performs before selecting any
rows: a posts CSV with zero data rows loads every column — `upvotes`
included — with object dtype, on which `nlargest` raises a `TypeError`
(message modelled with pandas' quote marks elided) even though the frame is
empty; with at least one row the numeric-or-missing upvote cells give the
column a float dtype and the selection proceeds. -/
def export_top_posts_checked (d : Data) (n : ℕ := 20) :
    Except String (List TopPost) :=
  if d.posts.isEmpty then
    Except.error
      "Column upvotes has dtype object, cannot use method nlargest with this dtype"
  else Except.ok (export_top_posts d n)

/-! ## Top-authors aggregator (`export_top_authors`) -/

/-- One record of `top_authors.by_engagement`. -/
structure EngagementEntry where
  name : String
  engagement_rate : ℚ
  total_posts : ℤ
  avg_upvotes : ℚ
  success_rate : ℚ
  deriving DecidableEq, Repr

/-- One record of `top_authors.by_posts`. -/
structure PostsEntry where
  name : String
  total_posts : ℤ
  avg_upvotes : ℚ
  posts_per_day : ℚ
  deriving DecidableEq, Repr

/-- One record of `top_authors.by_consistency`. -/
structure ConsistencyEntry where
  name : String
  consistency_score : ℚ
  total_posts : ℤ
  avg_upvotes : ℚ
  upvotes_std : ℚ
  deriving DecidableEq, Repr

/-- The `top_authors` section. -/
structure TopAuthors where
  by_engagement : List EngagementEntry
  by_posts : List PostsEntry
  by_consistency : List ConsistencyEntry
  deriving DecidableEq, Repr

/-- An author-stats row paired with its `RangeIndex` label: `row.name` in
`iterrows()` is the positional index, since `pd.read_csv` was called without
`index_col`. -/
abbrev IndexedAuthor := ℕ × AuthorRowF

/-- Model of `export_top_authors`: three rankings over `author_stats.fillna(0)`.
`str(row.name)` stringifies the positional index. The per-field
`pd.notna(...) else 0` guards always take the non-missing branch after the
frame-wide `fillna(0)`, so they are folded into `fillAuthor`. -/
def export_top_authors (d : Data) (n : ℕ := 20) : TopAuthors :=
  let author_stats : List IndexedAuthor := (d.author_stats.map fillAuthor).enum
  let active := author_stats.filter (fun r => 5 ≤ r.2.total_posts)
  { by_engagement :=
      (nlargest n (fun r => r.2.engagement_rate) active).map (fun r =>
        { name := toString r.1
          engagement_rate := r.2.engagement_rate
          total_posts := pyInt r.2.total_posts
          avg_upvotes := r.2.avg_upvotes
          success_rate := r.2.success_rate })
    by_posts :=
      (nlargest n (fun r => r.2.total_posts) author_stats).map (fun r =>
        { name := toString r.1
          total_posts := pyInt r.2.total_posts
          avg_upvotes := r.2.avg_upvotes
          posts_per_day := r.2.posts_per_day })
    by_consistency :=
      (nlargest n (fun r => r.2.consistency_score) active).map (fun r =>
        { name := toString r.1
          consistency_score := r.2.consistency_score
          total_posts := pyInt r.2.total_posts
          avg_upvotes := r.2.avg_upvotes
          upvotes_std := r.2.upvotes_std }) }

/-! ## Top-submolts aggregator (`export_submolt_stats`) -/

/-- One record of the `top_submolts` list. -/
structure SubmoltStat where
  name : String
  post_count : ℤ
  total_upvotes : ℤ
  avg_upvotes : ℚ
  median_upvotes : ℚ
  total_comments : ℤ
  avg_comments : ℚ
  unique_authors : ℤ
  deriving DecidableEq, Repr

/-- Model of `export_submolt_stats`: group the posts by submolt display name (the
`fillna` of `submolt_display_name → 'Unknown'`, `upvotes → 0`,
`comment_count → 0` is folded into the projections), aggregate each group,
round the aggregates to 2 decimals (`.round(2)`, half-to-even), and keep the
`n` groups with the most posts. The trailing `.fillna(0)` only fires for the
aggregates that are NaN, which cannot happen on a non-empty filled group,
hence the `getD 0`. -/
def export_submolt_stats (d : Data) (n : ℕ := 30) : List SubmoltStat :=
  let groups := groupBy (fun p => p.submolt_display_name.getD "Unknown") d.posts
  let stats := groups.map (fun g =>
    let rows := g.2
    let up : List (Option ℚ) := rows.map (fun p => some (p.upvotes.getD 0))
    let cm : List (Option ℚ) := rows.map (fun p => some (p.comment_count.getD 0))
    ({ name := g.1
       post_count := pyInt (round2 (sCount (rows.map (·.id)) : ℚ))
       total_upvotes := pyInt (round2 (sSum up))
       avg_upvotes := round2 ((sMean up).getD 0)
       median_upvotes := round2 ((sMedian up).getD 0)
       total_comments := pyInt (round2 (sSum cm))
       avg_comments := round2 ((sMean cm).getD 0)
       unique_authors := (sNunique (rows.map (·.author_name)) : ℤ) } : SubmoltStat))
  nlargest n (fun s => (s.post_count : ℚ)) stats

/-! ## Time-series aggregator (`export_time_series`) -/

/-- One record of `time_series.daily_posts`. The date ordinal is serialized
with `toString`, abstracting `astype(str)` on the parsed calendar date. -/
structure DailyEntry where
  date : String
  id : ℤ
  upvotes : ℚ
  deriving DecidableEq, Repr

/-- One record of `time_series.hourly_pattern`. -/
structure HourlyEntry where
  hour : ℕ
  id : ℤ
  upvotes : ℚ
  deriving DecidableEq, Repr

/-- One record of `time_series.day_of_week_pattern`. After
`.reindex(day_order)` the count column is float-valued (`fillna(0)` puts
`0.0` in absent days), hence `id : ℚ`. -/
structure DowEntry where
  day_of_week : String
  id : ℚ
  upvotes : ℚ
  deriving DecidableEq, Repr

/-- The `time_series` section. -/
structure TimeSeries where
  daily_posts : List DailyEntry
  hourly_pattern : List HourlyEntry
  day_of_week_pattern : List DowEntry
  deriving DecidableEq, Repr

/-- The fixed `day_order` list of the source. -/
def day_order : List String :=
  ["Monday", "Tuesday", "Wednesday", "Thursday", "Friday", "Saturday", "Sunday"]

/-- Model of `dt.day_name()` for a parsed timestamp's day of week (0 = Monday). -/
def dayName (d : Fin 7) : String :=
  day_order.getD d.val ""

/-- Model of `export_time_series`: the posts frame with `upvotes` filled to `0`,
timestamps parsed; rows whose `created_at` is missing get NaT-valued
`date`/`hour`/`day_of_week` and are dropped by every `groupby`. The
day-of-week series `groupby(...).reindex(day_order)` yields exactly one row
per `day_order` name (day names never fall outside it), absent days filled
with `0` by the trailing `fillna(0)`. -/
def export_time_series (d : Data) : TimeSeries :=
  let tsRows : List (Post × Timestamp) :=
    d.posts.filterMap (fun p => p.created_at.map (fun ts => (p, ts)))
  { daily_posts :=
      (groupBy (fun r => r.2.date) tsRows).map (fun g =>
        { date := toString g.1
          id := (sCount (g.2.map (·.1.id)) : ℤ)
          upvotes := (g.2.map (fun r => r.1.upvotes.getD 0)).sum })
    hourly_pattern :=
      (groupBy (fun r => r.2.hour) tsRows).map (fun g =>
        { hour := g.1.val
          id := (sCount (g.2.map (·.1.id)) : ℤ)
          upvotes := (sMean (g.2.map (fun r => some (r.1.upvotes.getD 0)))).getD 0 })
    day_of_week_pattern :=
      day_order.map (fun name =>
        let rows := tsRows.filter (fun r => dayName r.2.dow = name)
        { day_of_week := name
          id := (sCount (rows.map (·.1.id)) : ℚ)
          upvotes := (sMean (rows.map (fun r => some (r.1.upvotes.getD 0)))).getD 0 }) }

/-! ## Network aggregator (`export_network_data`) -/

/-- One record of `network.top_cross_posters`. -/
structure CrossPosterEntry where
  author : String
  submolt_count : ℤ
  submolts : List String
  deriving DecidableEq, Repr

/-- One record of `network.top_bridge_authors`. -/
structure BridgeEntry where
  author : String
  bridge_score : ℚ
  deriving DecidableEq, Repr

/-- The `network` section. -/
structure Network where
  stats : List (String × ℚ)
  top_cross_posters : List CrossPosterEntry
  top_bridge_authors : List BridgeEntry
  deriving DecidableEq, Repr

/-- Model of `export_network_data`: passes `network_stats` through; ranks the
cross-poster mapping descending by the *length* of each author's submolt
list (stable sort, first 20) and each entry keeps the first 5 submolt names;
ranks bridge authors descending by score (stable sort, first 20). The
`cross_posters[author]` dict lookup is the iterated pair's own list, since a
JSON object has distinct keys. -/
def export_network_data (d : Data) : Network :=
  let cross_posters := d.cross_posters
  let sortedCp := sortDescBy (fun ap => (ap.2.length : ℚ)) cross_posters
  let bridge_sorted := sortDescBy (fun ap => ap.2) d.bridge_authors
  { stats := d.network_stats
    top_cross_posters :=
      (sortedCp.take 20).map (fun ap =>
        { author := ap.1
          submolt_count := (ap.2.length : ℤ)
          submolts := ap.2.take 5 })
    top_bridge_authors :=
      (bridge_sorted.take 20).map (fun ap =>
        { author := ap.1, bridge_score := ap.2 }) }

/-! ## Insights aggregator (`export_insights`) -/

/-- The `insights.engagement` block. -/
structure InsEngagement where
  avg_upvotes : ℚ
  median_upvotes : ℚ
  top_1_percent_threshold : ℚ
  viral_threshold : ℚ
  deriving DecidableEq, Repr

/-- The `insights.authors` block. -/
structure InsAuthors where
  total : ℤ
  active_5plus : ℤ
  avg_posts_per_author : ℚ
  cross_posting_rate : ℚ
  deriving DecidableEq, Repr

/-- The `insights.content` block. -/
structure InsContent where
  total_posts : ℤ
  total_submolts : ℤ
  avg_title_length : ℚ
  posts_with_urls : ℤ
  deriving DecidableEq, Repr

/-- The `insights.timing` block. -/
structure InsTiming where
  best_hour : ℤ
  best_day : String
  deriving DecidableEq, Repr

/-- The `insights` section. -/
structure Insights where
  engagement : InsEngagement
  authors : InsAuthors
  content : InsContent
  timing : InsTiming
  deriving DecidableEq, Repr

/-- The insights frame fill: `df.fillna({'upvotes': 0, 'title': '', 'url': ''})`. -/
def fillInsights (p : Post) : Post :=
  { p with
    upvotes := some (p.upvotes.getD 0)
    title := some (p.title.getD "")
    url := some (p.url.getD "") }

/-- Model of `export_insights`: derived findings over the filled posts frame and the
filled author-stats frame. The `timing` block groups the per-hour and
per-day-name mean upvotes and takes `Series.idxmax()`, which raises a
`ValueError` on the empty series — modelled as `Except.error` — when no row
has a parseable `created_at`. The `df['url'].notna().sum()` count runs on the
frame whose `url` column was already filled with `''`. -/
def export_insights (d : Data) : Except String Insights :=
  let df := d.posts.map fillInsights
  let author_stats := d.author_stats.map fillAuthor
  let tsRows : List (Post × Timestamp) :=
    df.filterMap (fun p => p.created_at.map (fun ts => (p, ts)))
  let hourSeries : List (Fin 24 × ℚ) :=
    (groupBy (fun r => r.2.hour) tsRows).map (fun g =>
      (g.1, (sMean (g.2.map (fun r => r.1.upvotes))).getD 0))
  let daySeries : List (String × ℚ) :=
    (groupBy (fun r => dayName r.2.dow) tsRows).map (fun g =>
      (g.1, (sMean (g.2.map (fun r => r.1.upvotes))).getD 0))
  match idxmax hourSeries, idxmax daySeries with
  | some bestHour, some bestDay =>
    .ok
      { engagement :=
          { avg_upvotes :=
              if isnaAll (df.map (·.upvotes)) then 0
              else (sMean (df.map (·.upvotes))).getD 0
            median_upvotes :=
              if isnaAll (df.map (·.upvotes)) then 0
              else (sMedian (df.map (·.upvotes))).getD 0
            top_1_percent_threshold :=
              if isnaAll (df.map (·.upvotes)) then 0
              else (sQuantile (99 / 100) (df.map (·.upvotes))).getD 0
            viral_threshold :=
              if isnaAll (df.map (·.upvotes)) then 0
              else (sQuantile (90 / 100) (df.map (·.upvotes))).getD 0 }
        authors :=
          { total := (sNunique (df.map (·.author_name)) : ℤ)
            active_5plus :=
              ((author_stats.filter (fun a => 5 ≤ a.total_posts)).length : ℤ)
            avg_posts_per_author :=
              if isnaAll (author_stats.map (fun a => (some a.total_posts : Option ℚ))) then 0
              else (sMean (author_stats.map (fun a => some a.total_posts))).getD 0
            cross_posting_rate :=
              if 0 < author_stats.length then
                (d.cross_posters.length : ℚ) / (author_stats.length : ℚ) * 100
              else 0 }
        content :=
          { total_posts := (df.length : ℤ)
            total_submolts := (sNunique (df.map (·.submolt_display_name)) : ℤ)
            avg_title_length :=
              if isnaAll (df.map (·.title)) then 0
              else (sMean (df.map (fun p => p.title.map (fun s => (s.length : ℚ))))).getD 0
            posts_with_urls := (sCount (df.map (·.url)) : ℤ) }
        timing :=
          { best_hour := (bestHour.val : ℤ)
            best_day := bestDay } }
  | _, _ => .error "attempt to get argmax of an empty sequence"

/-! ## Assembler and writer (`main`) -/

/-- The dashboard document. -/
structure Dashboard where
  generated_at : String
  overview : Overview
  top_posts : List TopPost
  top_authors : TopAuthors
  top_submolts : List SubmoltStat
  time_series : TimeSeries
  network : Network
  insights : Insights
  deriving DecidableEq, Repr

/-- Assembly of the `dashboard_data` dict at generation time `t`
(`datetime.now().isoformat()` is passed in as a parameter). The dict
literal of `main` evaluates the sections in order — overview, top posts,
top authors, top submolts, time series, network, insights — and the two
fallible ones abort the build in that order: the top-posts `nlargest`
dtype check (zero-row posts table) fires before the insights argmax on an
empty series ever would. -/
def buildDashboard (t : String) (d : Data) : Except String Dashboard :=
  let overview := export_overview_stats d
  match export_top_posts_checked d with
  | Except.error e => Except.error e
  | Except.ok top_posts =>
    (export_insights d).map (fun ins =>
      { generated_at := t
        overview := overview
        top_posts := top_posts
        top_authors := export_top_authors d
        top_submolts := export_submolt_stats d
        time_series := export_time_series d
        network := export_network_data d
        insights := ins })

/-- Every float-typed numeric leaf of the document, in serialization order;
a leaf is `none` exactly when it is NaN. Integer-typed leaves cannot be
non-finite and do not trip `allow_nan=False`. -/
def dashLeaves (doc : Dashboard) : List (Option ℚ) :=
  [doc.overview.avg_upvotes_per_post,
   doc.overview.median_upvotes,
   doc.overview.avg_comments_per_post]
  ++ (doc.top_authors.by_engagement.flatMap (fun e =>
        [some e.engagement_rate, some e.avg_upvotes, some e.success_rate]))
  ++ (doc.top_authors.by_posts.flatMap (fun e =>
        [some e.avg_upvotes, some e.posts_per_day]))
  ++ (doc.top_authors.by_consistency.flatMap (fun e =>
        [some e.consistency_score, some e.avg_upvotes, some e.upvotes_std]))
  ++ (doc.top_submolts.flatMap (fun s =>
        [some s.avg_upvotes, some s.median_upvotes, some s.avg_comments]))
  ++ (doc.time_series.daily_posts.map (fun e => some e.upvotes))
  ++ (doc.time_series.hourly_pattern.map (fun e => some e.upvotes))
  ++ (doc.time_series.day_of_week_pattern.flatMap (fun e =>
        [some e.id, some e.upvotes]))
  ++ (doc.network.stats.map (fun kv => some kv.2))
  ++ (doc.network.top_bridge_authors.map (fun e => some e.bridge_score))
  ++ [some doc.insights.engagement.avg_upvotes,
      some doc.insights.engagement.median_upvotes,
      some doc.insights.engagement.top_1_percent_threshold,
      some doc.insights.engagement.viral_threshold,
      some doc.insights.authors.avg_posts_per_author,
      some doc.insights.authors.cross_posting_rate,
      some doc.insights.content.avg_title_length]

/-- Model of `json.dump(..., allow_nan=False)`: succeeds iff every float leaf of the
document is finite; otherwise raises a `ValueError` and writes no file. -/
def writeDashboard (doc : Dashboard) : Except String Dashboard :=
  if (dashLeaves doc).all (·.isSome) then .ok doc
  else .error "Out of range float values are not JSON compliant"

/-- Model of `main` after a successful load: build the document at generation time
`t`, then serialize it. The result is the written document, or the
propagated exception (in which case no output file exists). -/
def mainRun (t : String) (d : Data) : Except String Dashboard :=
  (buildDashboard t d).bind writeDashboard

/-! ## Helper lemmas -/

theorem mem_insertDescBy {α : Type} (key : α → ℚ) (x a : α) (l : List α) :
    a ∈ insertDescBy key x l ↔ a = x ∨ a ∈ l := by
  induction l with
  | nil => simp [insertDescBy]
  | cons y ys ih =>
    simp only [insertDescBy]
    split
    · simp
    · simp only [List.mem_cons, ih]
      tauto

theorem length_insertDescBy {α : Type} (key : α → ℚ) (x : α) (l : List α) :
    (insertDescBy key x l).length = l.length + 1 := by
  induction l with
  | nil => rfl
  | cons y ys ih =>
    simp only [insertDescBy]
    split
    · simp
    · simp [ih]

theorem pairwise_insertDescBy {α : Type} (key : α → ℚ) (x : α) (l : List α)
    (h : l.Pairwise (fun a b => key b ≤ key a)) :
    (insertDescBy key x l).Pairwise (fun a b => key b ≤ key a) := by
  induction l with
  | nil => simp [insertDescBy]
  | cons y ys ih =>
    rcases List.pairwise_cons.mp h with ⟨hy, hys⟩
    simp only [insertDescBy]
    split
    · rename_i hle
      refine List.pairwise_cons.mpr ⟨?_, h⟩
      intro b hb
      rcases List.mem_cons.mp hb with rfl | hb
      · exact hle
      · exact (hy b hb).trans hle
    · rename_i hgt
      push_neg at hgt
      refine List.pairwise_cons.mpr ⟨?_, ih hys⟩
      intro b hb
      rcases (mem_insertDescBy key x b ys).mp hb with rfl | hb
      · exact hgt.le
      · exact hy b hb

theorem mem_sortDescBy {α : Type} (key : α → ℚ) (a : α) (l : List α) :
    a ∈ sortDescBy key l ↔ a ∈ l := by
  induction l with
  | nil => simp [sortDescBy]
  | cons x xs ih =>
    simp [sortDescBy, mem_insertDescBy, ih]

theorem length_sortDescBy {α : Type} (key : α → ℚ) (l : List α) :
    (sortDescBy key l).length = l.length := by
  induction l with
  | nil => rfl
  | cons x xs ih =>
    simp [sortDescBy, length_insertDescBy, ih]

theorem pairwise_sortDescBy {α : Type} (key : α → ℚ) (l : List α) :
    (sortDescBy key l).Pairwise (fun a b => key b ≤ key a) := by
  induction l with
  | nil => simp [sortDescBy]
  | cons x xs ih => exact pairwise_insertDescBy key x _ ih

theorem mem_nlargest {α : Type} (n : ℕ) (key : α → ℚ) (l : List α) (a : α)
    (h : a ∈ nlargest n key l) : a ∈ l :=
  (mem_sortDescBy key a l).mp (List.take_subset n _ h)

theorem length_nlargest {α : Type} (n : ℕ) (key : α → ℚ) (l : List α) :
    (nlargest n key l).length = min n l.length := by
  simp [nlargest, length_sortDescBy]

theorem pairwise_nlargest {α : Type} (n : ℕ) (key : α → ℚ) (l : List α) :
    (nlargest n key l).Pairwise (fun a b => key b ≤ key a) :=
  (pairwise_sortDescBy key l).sublist (List.take_sublist n _)

theorem mem_nlargestOpt {α : Type} (n : ℕ) (key : α → Option ℚ) (l : List α)
    (a : α) (h : a ∈ nlargestOpt n key l) : a ∈ l ∧ (key a).isSome := by
  have h2 := List.take_subset _ _ h
  rw [mem_sortDescBy] at h2
  exact ⟨List.mem_of_mem_filter h2, by simpa using List.of_mem_filter h2⟩

theorem length_nlargestOpt {α : Type} (n : ℕ) (key : α → Option ℚ) (l : List α) :
    (nlargestOpt n key l).length ≤ min n l.length := by
  simp only [nlargestOpt, List.length_take, length_sortDescBy]
  exact min_le_min le_rfl (List.length_filter_le _ l)

theorem pairwise_nlargestOpt {α : Type} (n : ℕ) (key : α → Option ℚ) (l : List α) :
    (nlargestOpt n key l).Pairwise
      (fun a b => (key b).getD 0 ≤ (key a).getD 0) :=
  (pairwise_sortDescBy _ _).sublist (List.take_sublist n _)

theorem mem_insertKey {κ : Type} [LinearOrder κ] (x a : κ) (l : List κ) :
    a ∈ insertKey x l ↔ a = x ∨ a ∈ l := by
  induction l with
  | nil => simp [insertKey]
  | cons y ys ih =>
    simp only [insertKey]
    split
    · simp
    · split
      · rename_i hx
        subst hx
        simp only [List.mem_cons]
        tauto
      · simp only [List.mem_cons, ih]
        tauto

theorem pairwise_insertKey {κ : Type} [LinearOrder κ] (x : κ) (l : List κ)
    (h : l.Pairwise (· < ·)) : (insertKey x l).Pairwise (· < ·) := by
  induction l with
  | nil => simp [insertKey]
  | cons y ys ih =>
    rcases List.pairwise_cons.mp h with ⟨hy, hys⟩
    simp only [insertKey]
    split
    · rename_i hlt
      refine List.pairwise_cons.mpr ⟨?_, h⟩
      intro b hb
      rcases List.mem_cons.mp hb with rfl | hb
      · exact hlt
      · exact hlt.trans (hy b hb)
    · split
      · exact h
      · rename_i hnlt hne
        refine List.pairwise_cons.mpr ⟨?_, ih hys⟩
        intro b hb
        rcases (mem_insertKey x b ys).mp hb with rfl | hb
        · exact lt_of_le_of_ne (not_lt.mp hnlt) (Ne.symm hne)
        · exact hy b hb

theorem pairwise_sortedKeys {κ : Type} [LinearOrder κ] (l : List κ) :
    (sortedKeys l).Pairwise (· < ·) := by
  induction l with
  | nil => simp [sortedKeys]
  | cons x xs ih => exact pairwise_insertKey x _ ih

theorem mem_sortedKeys {κ : Type} [LinearOrder κ] (a : κ) (l : List κ) :
    a ∈ sortedKeys l ↔ a ∈ l := by
  induction l with
  | nil => simp [sortedKeys]
  | cons x xs ih =>
    simp [sortedKeys, List.foldr_cons, mem_insertKey] at *
    rw [ih]

theorem nodup_sortedKeys {κ : Type} [LinearOrder κ] (l : List κ) :
    (sortedKeys l).Nodup :=
  (pairwise_sortedKeys l).imp (fun h => LT.lt.ne h)

/-- Monotonicity of Python `int()` truncation. -/
theorem pyInt_mono {q r : ℚ} (h : q ≤ r) : pyInt q ≤ pyInt r := by
  unfold pyInt
  split
  · rename_i hq
    rw [if_pos (hq.trans h)]
    exact Int.floor_le_floor h
  · split
    · rename_i hq hr
      push_neg at hq
      calc ⌈q⌉ ≤ 0 := Int.ceil_le.mpr (by exact_mod_cast hq.le)
        _ ≤ ⌊r⌋ := Int.floor_nonneg.mpr hr
    · exact Int.ceil_le_ceil h

/-- Truncation keeps integer lower bounds. -/
theorem le_pyInt_of_le {n : ℤ} {q : ℚ} (h : (n : ℚ) ≤ q) (hn : 0 ≤ n) :
    n ≤ pyInt q := by
  unfold pyInt
  rw [if_pos ((Int.cast_nonneg.mpr hn).trans h)]
  exact Int.le_floor.mpr h

/-- A key appears among the groups of `groupBy` exactly when some row
carries it. -/
theorem mem_groupBy_keys {α κ : Type} [LinearOrder κ] (key : α → κ)
    (l : List α) (k : κ) :
    (∃ g ∈ groupBy key l, g.1 = k) ↔ ∃ a ∈ l, key a = k := by
  constructor
  · rintro ⟨g, hg, rfl⟩
    rcases List.mem_map.mp hg with ⟨k', hk', rfl⟩
    rcases List.mem_map.mp ((mem_sortedKeys k' _).mp hk') with ⟨a, ha, rfl⟩
    exact ⟨a, ha, rfl⟩
  · rintro ⟨a, ha, rfl⟩
    refine ⟨(key a, l.filter (fun b => key b = key a)), ?_, rfl⟩
    exact List.mem_map.mpr ⟨key a,
      (mem_sortedKeys _ _).mpr (List.mem_map.mpr ⟨a, ha, rfl⟩), rfl⟩

/-! ## Concrete fixtures for witnesses and counterexamples -/

/-- A parseable timestamp on a Monday at hour 3. -/
def tsMon3 : Timestamp :=
  { raw := "2024-01-01T03:00:00", date := 100, hour := 3, dow := 0 }

/-- A fully-populated post row. -/
def basePost : Post :=
  { id := some 1, title := some "hello", author_name := some "alice",
    submolt_display_name := some "s1", upvotes := some 10, comment_count := some 1,
    created_at := some tsMon3, url := some "u" }

/-- An author-stats row with 10 total posts. -/
def authorAlice : AuthorRow :=
  { author_name := some "alice", total_posts := some 10, avg_upvotes := some 3,
    engagement_rate := some 2, success_rate := some 1, consistency_score := some 5,
    upvotes_std := some 1, posts_per_day := some 1 }

/-- An author-stats row with a single post (below the activity threshold). -/
def authorBob : AuthorRow :=
  { authorAlice with author_name := some "bob", total_posts := some 1 }

/-- Dataset whose posts table has an entirely missing upvote column. -/
def dC1 : Data :=
  { posts := [{ basePost with upvotes := none, comment_count := none }],
    author_stats := [authorAlice], cross_posters := [], bridge_authors := [],
    network_stats := [] }

/-- Dataset with a single post, created at hour 3. -/
def dC2 : Data :=
  { posts := [basePost], author_stats := [authorAlice], cross_posters := [],
    bridge_authors := [], network_stats := [] }

/-- Dataset with a single post whose URL is missing. -/
def dC3 : Data :=
  { posts := [{ basePost with url := none }], author_stats := [authorAlice],
    cross_posters := [], bridge_authors := [], network_stats := [] }

/-- Dataset whose author-stats table holds one row for author `alice`. -/
def dC4 : Data :=
  { posts := [basePost], author_stats := [authorAlice], cross_posters := [],
    bridge_authors := [], network_stats := [] }

/-- Dataset whose cross-poster mapping lists one author with a duplicated
submolt name. -/
def dC5 : Data :=
  { posts := [basePost], author_stats := [authorAlice],
    cross_posters := [("a", ["s", "s"])], bridge_authors := [], network_stats := [] }

/-- Dataset with one active author (10 posts). -/
def dC7 : Data :=
  { posts := [basePost], author_stats := [authorAlice], cross_posters := [],
    bridge_authors := [], network_stats := [] }

/-- Dataset whose only author has a single post. -/
def dC7b : Data :=
  { posts := [basePost], author_stats := [authorBob], cross_posters := [],
    bridge_authors := [], network_stats := [] }

/-- Dataset with an empty posts table. -/
def dEmpty : Data :=
  { posts := [], author_stats := [authorAlice], cross_posters := [],
    bridge_authors := [], network_stats := [] }

/-! ## Claim theorems -/

/-- C2, counterexample: on a posts table whose single post was created at
hour 3, `time_series.hourly_pattern` has exactly one entry, not the claimed
24 — the hourly groupby is never reindexed over the full hour range. -/
theorem C2_counterexample :
    (export_time_series dC2).hourly_pattern.length = 1 ∧
    (export_time_series dC2).hourly_pattern.length ≠ 24 := by
  constructor
  · rfl
  · decide

/-- C3, evaluation at the failing input: for a posts table whose single post
has a missing URL, the code reports `insights.content.posts_with_urls = 1`
(it counts every row, because the `url` column was filled with `''` before
the `notna()` count), while the number of posts with a non-missing URL is 0. -/
theorem C3_code_eval :
    Except.map (fun i => i.content.posts_with_urls) (export_insights dC3) =
      Except.ok 1 ∧
    (dC3.posts.filter (fun p => p.url.isSome)).length = 0 := by
  constructor
  · rfl
  · rfl

/-- C4, evaluation at the failing input: for an author-stats table holding
one record whose `author_name` column is `"alice"`, every `top_authors`
ranking reports the name `"0"` — the stringified positional row index
(`row.name` on the default `RangeIndex`) — instead of the author name. -/
theorem C4_code_eval :
    (export_top_authors dC4).by_posts.map (fun e => e.name) = ["0"] ∧
    (export_top_authors dC4).by_engagement.map (fun e => e.name) = ["0"] ∧
    dC4.author_stats.map (fun a => a.author_name) = [some "alice"] ∧
    "0" ≠ "alice" := by
  refine ⟨rfl, rfl, rfl, ?_⟩
  decide

/-- C5, counterexample: for the cross-poster mapping `{a: [s, s]}`, the
emitted `submolt_count` is 2 — the length of the stored list — although the
author has posted to only 1 distinct submolt. -/
theorem C5_counterexample :
    (export_network_data dC5).top_cross_posters.map (fun e => e.submolt_count) =
      [2] ∧
    dC5.cross_posters.map (fun ap => ((ap.2.dedup.length : ℤ))) = [1] := by
  constructor
  · rfl
  · rfl

/-- C10, counterexample: on the concrete empty posts table the run does
abort before serialization, but with the `nlargest` dtype `TypeError`
raised in the top-posts aggregator — evaluated before the insights
aggregator in the dict literal of `main` — not with the insights argmax
error the claim names. -/
theorem C10_counterexample :
    mainRun "2025-01-01T00:00:00" dEmpty =
      Except.error
        "Column upvotes has dtype object, cannot use method nlargest with this dtype" ∧
    mainRun "2025-01-01T00:00:00" dEmpty ≠
      Except.error "attempt to get argmax of an empty sequence" := by
  have h1 : mainRun "2025-01-01T00:00:00" dEmpty =
      Except.error
        "Column upvotes has dtype object, cannot use method nlargest with this dtype" :=
    rfl
  refine ⟨h1, ?_⟩
  rw [h1]
  intro hcontra
  exact absurd (Except.error.inj hcontra) (by decide)

/-- C10, amended: when both required tables load but the posts table has
zero rows, the pipeline still raises before serialization and writes no
output, but in the top-posts aggregator: the zero-row CSV loads its columns
with object dtype and the `nlargest` dtype check raises a `TypeError`,
preempting the insights aggregator — whose argmax of the empty per-hour
mean series would error were it ever evaluated. -/
theorem C10_amended (t : String) (d : Data) (h : d.posts = []) :
    mainRun t d =
      Except.error
        "Column upvotes has dtype object, cannot use method nlargest with this dtype" ∧
    export_insights d =
      Except.error "attempt to get argmax of an empty sequence" := by
  constructor
  · simp [mainRun, buildDashboard, export_top_posts_checked, h, Except.bind]
  · simp [export_insights, h, groupBy, sortedKeys, idxmax]

/-- C10, witness for the amended statement at the concrete empty-posts
dataset. -/
theorem C10_amended_witness :
    mainRun "2025-06-01T00:00:00" dEmpty =
      Except.error
        "Column upvotes has dtype object, cannot use method nlargest with this dtype" ∧
    export_insights dEmpty =
      Except.error "attempt to get argmax of an empty sequence" :=
  C10_amended "2025-06-01T00:00:00" dEmpty rfl

/-- C1, counterexample: on a posts table whose upvote and comment columns
are entirely missing, the overview aggregator's mean and median fields are
NaN (`none`) — it performs no defaulting, unlike the insights aggregator —
and the run aborts at serialization with the non-finite-value error instead
of producing a document with those fields finite. -/
theorem C1_counterexample :
    (export_overview_stats dC1).avg_upvotes_per_post = none ∧
    (export_overview_stats dC1).median_upvotes = none ∧
    (export_overview_stats dC1).avg_comments_per_post = none ∧
    mainRun "2025-01-01T00:00:00" dC1 =
      Except.error "Out of range float values are not JSON compliant" := by
  refine ⟨rfl, rfl, rfl, ?_⟩
  rfl

/-- C1, amended: the writer really does reject non-finite values — it
serializes a document only when every float leaf is finite — but the
overview aggregator does not pre-substitute defaults: whenever the upvote
column is entirely missing, its mean and median upvote fields are NaN and
the whole run fails with an error (either the insights argmax error or the
serialization error), so no invalid number is ever written silently. -/
theorem C1_amended :
    (∀ doc res, writeDashboard doc = Except.ok res →
      (dashLeaves doc).all (fun x => x.isSome) = true) ∧
    (∀ t d, (∀ p ∈ d.posts, p.upvotes = none) →
      (export_overview_stats d).avg_upvotes_per_post = none ∧
      (export_overview_stats d).median_upvotes = none ∧
      ∃ e, mainRun t d = Except.error e) := by
  constructor
  · intro doc res h
    unfold writeDashboard at h
    split at h
    · assumption
    · cases h
  · intro t d hmiss
    have hvals : seriesVals (d.posts.map (fun p => p.upvotes)) = [] := by
      rw [seriesVals, List.filterMap_eq_nil_iff]
      intro a ha
      rcases List.mem_map.mp ha with ⟨p, hp, rfl⟩
      exact hmiss p hp
    have havg : (export_overview_stats d).avg_upvotes_per_post = none := by
      simp [export_overview_stats, sMean, hvals]
    have hmed : (export_overview_stats d).median_upvotes = none := by
      simp [export_overview_stats, sMedian, hvals, sortAscQ]
    refine ⟨havg, hmed, ?_⟩
    cases hp : export_top_posts_checked d with
    | error e =>
      exact ⟨e, by simp [mainRun, buildDashboard, hp, Except.bind]⟩
    | ok tp =>
      cases hi : export_insights d with
      | error e =>
        exact ⟨e, by simp [mainRun, buildDashboard, hp, hi, Except.map,
          Except.bind]⟩
      | ok ins =>
        refine ⟨"Out of range float values are not JSON compliant", ?_⟩
        have hall :
            (dashLeaves
              { generated_at := t
                overview := export_overview_stats d
                top_posts := tp
                top_authors := export_top_authors d
                top_submolts := export_submolt_stats d
                time_series := export_time_series d
                network := export_network_data d
                insights := ins }).all (fun x => x.isSome) = false := by
          simp [dashLeaves, havg]
        simp [mainRun, buildDashboard, hp, hi, Except.map, Except.bind,
          writeDashboard, hall]

/-- C1, witness for the amended statement: instantiated at the all-missing
upvote dataset, the overview mean is NaN and the run errors. -/
theorem C1_amended_witness :
    (export_overview_stats dC1).avg_upvotes_per_post = none ∧
    (export_overview_stats dC1).median_upvotes = none ∧
    ∃ e, mainRun "2025-01-01T00:00:00" dC1 = Except.error e :=
  C1_amended.2 "2025-01-01T00:00:00" dC1 (by decide)

/-- C2, amended: `day_of_week_pattern` always has exactly 7 entries in the
fixed Monday-through-Sunday order, but `hourly_pattern` is not padded to 24
buckets: it has one entry per hour actually present in the input (in
strictly ascending hour order, hence at most 24), and an hour bucket appears
iff some post was created in that hour. -/
theorem C2_amended (d : Data) :
    (export_time_series d).day_of_week_pattern.map (fun e => e.day_of_week) =
      day_order ∧
    (export_time_series d).day_of_week_pattern.length = 7 ∧
    (export_time_series d).hourly_pattern.length ≤ 24 ∧
    ((export_time_series d).hourly_pattern.map (fun e => e.hour)).Pairwise (· < ·) ∧
    (∀ h24 : Fin 24,
      (∃ e ∈ (export_time_series d).hourly_pattern, e.hour = h24.val) ↔
      (∃ p ∈ d.posts, ∃ ts, p.created_at = some ts ∧ ts.hour = h24)) := by
  refine ⟨rfl, rfl, ?_, ?_, ?_⟩
  · simp only [export_time_series, groupBy, List.length_map]
    simpa using (nodup_sortedKeys
      ((d.posts.filterMap (fun p => p.created_at.map (fun ts => (p, ts)))).map
        (fun r => r.2.hour))).length_le_card
  · simp only [export_time_series, groupBy, List.map_map]
    rw [List.pairwise_map]
    exact (pairwise_sortedKeys _).imp (fun h => h)
  · intro h24
    simp only [export_time_series]
    constructor
    · rintro ⟨e, he, hhour⟩
      rcases List.mem_map.mp he with ⟨g, hg, rfl⟩
      have hk : ∃ g' ∈ groupBy
          (fun r : Post × Timestamp => r.2.hour)
          (d.posts.filterMap (fun p => p.created_at.map (fun ts => (p, ts)))),
          g'.1 = h24 := ⟨g, hg, Fin.ext hhour⟩
      rcases (mem_groupBy_keys _ _ _).mp hk with ⟨r, hr, hrk⟩
      rcases List.mem_filterMap.mp hr with ⟨p, hp, hpr⟩
      rcases Option.map_eq_some'.mp hpr with ⟨ts, hts, hpair⟩
      refine ⟨p, hp, ts, hts, ?_⟩
      have : r.2 = ts := by rw [← hpair]
      rw [← hrk, this]
    · rintro ⟨p, hp, ts, hts, rfl⟩
      have hr : (p, ts) ∈
          d.posts.filterMap (fun p => p.created_at.map (fun ts => (p, ts))) :=
        List.mem_filterMap.mpr ⟨p, hp, by rw [hts]; rfl⟩
      rcases (mem_groupBy_keys
          (fun r : Post × Timestamp => r.2.hour) _ ts.hour).mpr
          ⟨(p, ts), hr, rfl⟩ with ⟨g, hg, hgk⟩
      exact ⟨_, List.mem_map.mpr ⟨g, hg, rfl⟩, by rw [hgk]⟩

/-- C2, witness for the amended statement: at the one-post fixture, the
hour-3 bucket appears exactly because a post was created at hour 3. -/
theorem C2_amended_witness :
    (∃ e ∈ (export_time_series dC2).hourly_pattern, e.hour = (3 : Fin 24).val) ↔
    (∃ p ∈ dC2.posts, ∃ ts, p.created_at = some ts ∧ ts.hour = (3 : Fin 24)) :=
  (C2_amended dC2).2.2.2.2 3

/-- C5, amended: `network.top_cross_posters` has at most 20 entries, ranked
descending by the *length* of each author's stored submolt list (which
equals the distinct-submolt count only when that list is duplicate-free),
and each entry carries the author name, that length, and the first 5 names
of the author's list in its existing order. -/
theorem C5_amended (d : Data) :
    (export_network_data d).top_cross_posters.length ≤ 20 ∧
    (export_network_data d).top_cross_posters.Pairwise
      (fun a b => b.submolt_count ≤ a.submolt_count) ∧
    ∀ e ∈ (export_network_data d).top_cross_posters,
      ∃ pr ∈ d.cross_posters,
        e.author = pr.1 ∧ e.submolt_count = (pr.2.length : ℤ) ∧
        e.submolts = pr.2.take 5 := by
  refine ⟨?_, ?_, ?_⟩
  · simp only [export_network_data, List.length_map, List.length_take]
    exact min_le_left _ _
  · simp only [export_network_data]
    rw [List.pairwise_map]
    refine ((pairwise_sortDescBy _ _).sublist (List.take_sublist _ _)).imp ?_
    intro a b h
    show ((b.2.length : ℤ)) ≤ ((a.2.length : ℤ))
    exact_mod_cast h
  · intro e he
    simp only [export_network_data] at he
    rcases List.mem_map.mp he with ⟨pr, hpr, rfl⟩
    have hmem : pr ∈ sortDescBy (fun ap => ((ap.2.length : ℚ))) d.cross_posters :=
      List.take_subset _ _ hpr
    exact ⟨pr, (mem_sortDescBy _ _ _).mp hmem, rfl, rfl, rfl⟩

/-- The cross-poster entry produced for the fixture author `a`. -/
def cpe5 : CrossPosterEntry :=
  { author := "a", submolt_count := 2, submolts := ["s", "s"] }

/-- C5, witness for the amended statement at the duplicate-list fixture. -/
theorem C5_amended_witness :
    ∃ pr ∈ dC5.cross_posters,
      cpe5.author = pr.1 ∧ cpe5.submolt_count = (pr.2.length : ℤ) ∧
      cpe5.submolts = pr.2.take 5 :=
  (C5_amended dC5).2.2 cpe5 (by decide)

/-- The integer `upvotes` field of a selected top post is the truncation of
its (present) upvote cell. -/
theorem mkTopPost_upvotes {p : Post} (h : p.upvotes.isSome) :
    (mkTopPost p).upvotes = pyInt (p.upvotes.getD 0) := by
  cases hu : p.upvotes with
  | none => rw [hu] at h; cases h
  | some q => simp [mkTopPost, hu]

/-- C6: `top_posts` has at most `min 20 total_posts` entries and is sorted
in descending order of upvotes (ties in unspecified order). -/
theorem C6_top_posts (d : Data) :
    (export_top_posts d).length ≤ min 20 d.posts.length ∧
    (export_top_posts d).Pairwise (fun a b => b.upvotes ≤ a.upvotes) := by
  constructor
  · simp only [export_top_posts, List.length_map]
    exact length_nlargestOpt _ _ _
  · simp only [export_top_posts]
    rw [List.pairwise_map]
    refine List.Pairwise.imp_of_mem ?_
      (pairwise_nlargestOpt 20 (fun p => p.upvotes) d.posts)
    intro a b ha hb h
    rw [mkTopPost_upvotes (mem_nlargestOpt _ _ _ _ ha).2,
      mkTopPost_upvotes (mem_nlargestOpt _ _ _ _ hb).2]
    exact pyInt_mono h

/-- C7: every entry of `top_authors.by_engagement` and `by_consistency`
comes from an author-stats row whose (zero-defaulted) total post count is at
least 5, and its reported `total_posts` is at least 5; `by_posts` applies no
such filter — an author with a single post still appears there. -/
theorem C7_activity_filter (d : Data) :
    (∀ e ∈ (export_top_authors d).by_engagement,
      ∃ r ∈ (d.author_stats.map fillAuthor).enum,
        5 ≤ r.2.total_posts ∧ e.name = toString r.1 ∧ (5 : ℤ) ≤ e.total_posts) ∧
    (∀ e ∈ (export_top_authors d).by_consistency,
      ∃ r ∈ (d.author_stats.map fillAuthor).enum,
        5 ≤ r.2.total_posts ∧ e.name = toString r.1 ∧ (5 : ℤ) ≤ e.total_posts) ∧
    (export_top_authors dC7b).by_posts.map (fun e => (e.name, e.total_posts)) =
      [("0", 1)] := by
  refine ⟨?_, ?_, rfl⟩
  all_goals
    intro e he
    simp only [export_top_authors] at he
    rcases List.mem_map.mp he with ⟨r, hr, rfl⟩
    have hr' := List.mem_filter.mp (mem_nlargest _ _ _ _ hr)
    have h5 : 5 ≤ r.2.total_posts := by simpa using hr'.2
    exact ⟨r, hr'.1, h5, rfl, le_pyInt_of_le (by exact_mod_cast h5) (by norm_num)⟩

/-- The engagement entry produced for the fixture author at row index 0. -/
def engAlice : EngagementEntry :=
  { name := "0", engagement_rate := 2, total_posts := 10, avg_upvotes := 3,
    success_rate := 1 }

/-- C7, witness: the fixture's one engagement entry traces back to a source
row with at least 5 posts. -/
theorem C7_activity_filter_witness :
    ∃ r ∈ (dC7.author_stats.map fillAuthor).enum,
      5 ≤ r.2.total_posts ∧ engAlice.name = toString r.1 ∧
      (5 : ℤ) ≤ engAlice.total_posts :=
  (C7_activity_filter dC7).1 engAlice (by decide)

/-- C8: when the optional cross-poster file is missing/unreadable/malformed
the loader substitutes an empty mapping; with an empty cross-poster mapping,
`network.top_cross_posters` is empty and
`insights.authors.cross_posting_rate` is 0, while every other part of every
section equals what it is with the original mapping. -/
theorem C8_missing_cross_posters (d : Data) :
    (∀ p s ba ns, (load_all_data p s none ba ns).cross_posters = []) ∧
    (export_network_data { d with cross_posters := [] }).top_cross_posters = [] ∧
    (export_network_data { d with cross_posters := [] }).stats =
      (export_network_data d).stats ∧
    (export_network_data { d with cross_posters := [] }).top_bridge_authors =
      (export_network_data d).top_bridge_authors ∧
    export_insights { d with cross_posters := [] } =
      Except.map
        (fun i => { i with authors := { i.authors with cross_posting_rate := 0 } })
        (export_insights d) ∧
    export_overview_stats { d with cross_posters := [] } =
      export_overview_stats d ∧
    export_top_posts { d with cross_posters := [] } = export_top_posts d ∧
    export_top_authors { d with cross_posters := [] } = export_top_authors d ∧
    export_submolt_stats { d with cross_posters := [] } = export_submolt_stats d ∧
    export_time_series { d with cross_posters := [] } = export_time_series d := by
  refine ⟨fun p s ba ns => rfl, rfl, rfl, rfl, ?_, rfl, rfl, rfl, rfl, rfl⟩
  simp only [export_insights]
  cases hH : idxmax
      ((groupBy (fun r : Post × Timestamp => r.2.hour)
        ((d.posts.map fillInsights).filterMap
          (fun p => p.created_at.map (fun ts => (p, ts))))).map
        (fun g => (g.1, (sMean (g.2.map (fun r => r.1.upvotes))).getD 0))) with
  | none => simp [hH, Except.map]
  | some bestHour =>
    cases hD : idxmax
        ((groupBy (fun r : Post × Timestamp => dayName r.2.dow)
          ((d.posts.map fillInsights).filterMap
            (fun p => p.created_at.map (fun ts => (p, ts))))).map
          (fun g => (g.1, (sMean (g.2.map (fun r => r.1.upvotes))).getD 0))) with
    | none => simp [hH, hD, Except.map]
    | some bestDay => simp [hH, hD, Except.map, zero_div]

/-- Erase the generation timestamp of a document. -/
def stripGenerated (doc : Dashboard) : Dashboard :=
  { doc with generated_at := "" }

/-- The float leaves of a document ignore the generation timestamp. -/
theorem dashLeaves_stripGenerated (doc : Dashboard) :
    dashLeaves (stripGenerated doc) = dashLeaves doc := rfl

/-- Serialization commutes with erasing the generation timestamp. -/
theorem map_strip_writeDashboard (doc : Dashboard) :
    Except.map stripGenerated (writeDashboard doc) =
      writeDashboard (stripGenerated doc) := by
  unfold writeDashboard
  rw [dashLeaves_stripGenerated]
  split
  · rfl
  · rfl

/-- C9: the pipeline is a deterministic function of the loaded inputs — two
runs on the same data, differing only in the generation timestamp, produce
documents identical except for the `generated_at` field (and identically
succeed or fail). -/
theorem C9_deterministic (t1 t2 : String) (d : Data) :
    Except.map stripGenerated (mainRun t1 d) =
      Except.map stripGenerated (mainRun t2 d) := by
  unfold mainRun buildDashboard
  cases hp : export_top_posts_checked d with
  | error e => rfl
  | ok tp =>
    cases hi : export_insights d with
    | error e => rfl
    | ok ins =>
      show Except.map stripGenerated (writeDashboard _) =
        Except.map stripGenerated (writeDashboard _)
      rw [map_strip_writeDashboard, map_strip_writeDashboard]
      rfl

end MoltbookStats
